import Mathlib

/-!
Shallow embedding of the request dispatch and validation core of the
gemini-ai-api-project repository.

The repository contains two servers implementing the same HTTP surface:
a Bun server (`src/index.ts`) and an Express server (an unnamed source
file), plus split-out handler modules (`src/handlers/documentHandler.ts`,
`src/handlers/audioHandler.ts`) holding a binary-payload variant of the
document and audio handlers.  All of them are embedded below.

The vendor model call is abstracted as a function from the call record
(model identifier plus payload) to an outcome (generated text or a thrown
failure detail); every other branch of the code is translated directly.
-/

/-- Body of a JSON HTTP response.  Each field of the envelope is optional
because the source builds several distinct object shapes
(`{error}`, `{success, data, model}`, `{success, error}`). -/
structure JsonBody where
  success : Option Bool
  data : Option String
  error : Option String
  model : Option String
  deriving DecidableEq, Repr

/-- An HTTP response: a status code and an optional JSON body
(`new Response(null, ...)` for OPTIONS has no body). -/
structure HttpResponse where
  status : Nat
  body : Option JsonBody
  deriving DecidableEq, Repr

/-- Body shape `JSON.stringify({ error: msg })` used by 400/404/405 paths. -/
def jsonError (msg : String) : JsonBody :=
  { success := none, data := none, error := some msg, model := none }

/-- Body shape `JSON.stringify({ success: true, data, model })` used by 200 paths. -/
def jsonSuccess (d m : String) : JsonBody :=
  { success := some true, data := some d, error := none, model := some m }

/-- Body shape `JSON.stringify({ success: false, error })` used by 500 paths. -/
def jsonFailure (msg : String) : JsonBody :=
  { success := some false, data := none, error := some msg, model := none }

/-- Response with a JSON body at the given status. -/
def resp (status : Nat) (b : JsonBody) : HttpResponse :=
  { status := status, body := some b }

/-- Configuration loaded from the environment (`src/config`). -/
structure Env where
  GEMINI_API_KEY : String
  GEMINI_MODEL : String
  GEMINI_VISION_MODEL : String
  PORT : Nat
  deriving DecidableEq, Repr

/-- Standard base64 alphabet used by `Buffer.toString("base64")`. -/
def base64Alphabet : List Char :=
  "ABCDEFGHIJKLMNOPQRSTUVWXYZabcdefghijklmnopqrstuvwxyz0123456789+/".toList

/-- Character of the base64 alphabet at an index below 64. -/
def b64c (n : Nat) : Char := base64Alphabet.getD n '='

/-- Base64 encoding of a byte sequence with `=` padding, as produced by
`Buffer.toString("base64")` (each entry is taken mod 256). -/
def base64Encode : List Nat → String
  | [] => ""
  | [a] =>
    let a := a % 256
    String.mk [b64c (a / 4), b64c (a % 4 * 16), '=', '=']
  | [a, b] =>
    let a := a % 256
    let b := b % 256
    String.mk [b64c (a / 4), b64c (a % 4 * 16 + b / 16), b64c (b % 16 * 4), '=']
  | a :: b :: c :: rest =>
    let a' := a % 256
    let b' := b % 256
    let c' := c % 256
    String.mk [b64c (a' / 4), b64c (a' % 4 * 16 + b' / 16),
      b64c (b' % 16 * 4 + c' / 64), b64c (c' % 64)] ++ base64Encode rest

/-- An inline-data part of a model payload (the source's `Part` type,
`{ inlineData: { data, mimeType } }`; renamed because `Part` exists in
the ambient library). -/
structure GenPart where
  data : String
  mimeType : String
  deriving DecidableEq, Repr

/-- Translation of `fileToGenerativePart(buffer, mimeType)`. -/
def fileToGenerativePart (buffer : List Nat) (mimeType : String) : GenPart :=
  { data := base64Encode buffer, mimeType := mimeType }

/-- Payload of a `generateContent` call: a plain string, or `[text, part]`. -/
inductive Payload where
  | textOnly (text : String)
  | textAndPart (text : String) (part : GenPart)
  deriving DecidableEq, Repr

/-- Record of one Model Client invocation: which model identifier was
selected via `getGenerativeModel` and what payload `generateContent` got. -/
structure ModelCall where
  modelId : String
  payload : Payload
  deriving DecidableEq, Repr

/-- Outcome of a Model Client call: generated text, or a thrown failure
carrying the vendor error detail. -/
inductive ModelOutcome where
  | success (text : String)
  | failure (detail : String)
  deriving DecidableEq, Repr

/-- The external Model Client collaborator, abstracted as a function. -/
def ModelClient : Type := ModelCall → ModelOutcome

/-- An uploaded file as seen through the Web `File` interface
(`formData.get(...)` in the Bun server): `name`, declared MIME `type`,
reported `size`, and the byte `buffer` read by `arrayBuffer()`. -/
structure FormFile where
  name : String
  type : String
  size : Nat
  bytes : List Nat
  deriving DecidableEq, Repr

/-- Fields of a parsed multipart form, as extracted by the handlers:
`formData.get("text")?.toString()` and the three possible file fields. -/
structure FormData where
  text : Option String
  image : Option FormFile
  document : Option FormFile
  audio : Option FormFile
  deriving DecidableEq, Repr

/-- Parsed JSON body of a text request (`body as TextRequest`); `text` is
absent when the JSON object has no such field. -/
structure TextBody where
  text : Option String
  deriving DecidableEq, Repr

/-- An inbound request to the Bun server, with the results of the two
body-reading operations a handler may perform: `await req.json()` and
`await req.formData()`; `Except.error` means the operation throws. -/
structure BunReq where
  method : String
  path : String
  contentType : Option String
  jsonResult : Except String TextBody
  formResult : Except String FormData
  deriving Repr

/-- Result of running one handler body: a returned response, or a thrown
error (propagating to the dispatcher catch).  Also records the Model
Client call the handler made, if any. -/
inductive HandlerOut where
  | ok (r : HttpResponse) (call : Option ModelCall)
  | thrown (detail : String) (call : Option ModelCall)
  deriving DecidableEq, Repr

/-- The Model Client call recorded in a handler outcome. -/
def HandlerOut.call : HandlerOut → Option ModelCall
  | .ok _ c => c
  | .thrown _ c => c

/-- JavaScript string falsiness for a possibly-absent string field
(`!text` is true exactly when `text` is `undefined` or the empty string). -/
def isFalsy : Option String → Bool
  | none => true
  | some s => s == ""

/-- JavaScript `s.includes(sub)`: substring containment. -/
def jsIncludes (s sub : String) : Bool :=
  decide (sub.toList <:+: s.toList)

/-- Allow-list `allowedImageTypes` of the image handler. -/
def allowedImageTypes : List String :=
  ["image/jpeg", "image/png", "image/webp", "image/heic", "image/heif"]

/-- Allow-list `allowedDocumentTypes` of the document handler. -/
def allowedDocumentTypes : List String :=
  ["application/pdf", "application/msword",
   "application/vnd.openxmlformats-officedocument.wordprocessingml.document",
   "text/plain", "text/markdown"]

/-- Allow-list `allowedAudioTypes` of the audio handler. -/
def allowedAudioTypes : List String :=
  ["audio/mpeg", "audio/mp4", "audio/wav", "audio/ogg", "audio/webm"]

/-- Translation of `handleGenerateText` from `src/index.ts`: content-type
check, JSON parse (which may throw), `!text` validation, then the model
call on `env.GEMINI_MODEL`. -/
def handleGenerateText (env : Env) (client : ModelClient) (req : BunReq) :
    HandlerOut :=
  if jsIncludes (req.contentType.getD "") "application/json" = false then
    .ok (resp 400 (jsonError "Content type must be application/json")) none
  else
    match req.jsonResult with
    | .error e => .thrown e none
    | .ok body =>
      if isFalsy body.text then
        .ok (resp 400 (jsonError "Text prompt is required")) none
      else
        let call : ModelCall :=
          { modelId := env.GEMINI_MODEL, payload := .textOnly (body.text.getD "") }
        match client call with
        | .success t => .ok (resp 200 (jsonSuccess t env.GEMINI_MODEL)) (some call)
        | .failure d => .thrown d (some call)

/-- Translation of `handleGenerateFromImage` from `src/index.ts`. -/
def handleGenerateFromImage (env : Env) (client : ModelClient) (req : BunReq) :
    HandlerOut :=
  match req.formResult with
  | .error e => .thrown e none
  | .ok fd =>
    if isFalsy fd.text then
      .ok (resp 400 (jsonError "Text prompt is required")) none
    else
      match fd.image with
      | none => .ok (resp 400 (jsonError "Image file is required")) none
      | some imageFile =>
        if allowedImageTypes.contains imageFile.type = false then
          .ok (resp 400 (jsonError
            "Invalid image format. Supported formats: JPEG, PNG, WEBP, HEIC, HEIF")) none
        else
          let imagePart := fileToGenerativePart imageFile.bytes imageFile.type
          let call : ModelCall :=
            { modelId := env.GEMINI_VISION_MODEL,
              payload := .textAndPart (fd.text.getD "") imagePart }
          match client call with
          | .success t =>
            .ok (resp 200 (jsonSuccess t env.GEMINI_VISION_MODEL)) (some call)
          | .failure d => .thrown d (some call)

/-- Synthetic prompt built by the document handler of `src/index.ts`. -/
def documentPrompt (documentFile : FormFile) (text : String) : String :=
  "\n    Document name: " ++ documentFile.name ++
  "\n    Document type: " ++ documentFile.type ++
  "\n    User prompt: " ++ text ++
  "\n    Process this document according to the user's request."

/-- Translation of `handleGenerateFromDocument` from `src/index.ts`
(textual strategy: the file is described in a synthetic prompt). -/
def handleGenerateFromDocument (env : Env) (client : ModelClient) (req : BunReq) :
    HandlerOut :=
  match req.formResult with
  | .error e => .thrown e none
  | .ok fd =>
    if isFalsy fd.text then
      .ok (resp 400 (jsonError "Text prompt is required")) none
    else
      match fd.document with
      | none => .ok (resp 400 (jsonError "Document file is required")) none
      | some documentFile =>
        if allowedDocumentTypes.contains documentFile.type = false then
          .ok (resp 400 (jsonError
            "Invalid document format. Supported formats: PDF, DOC, DOCX, TXT, MD")) none
        else
          let call : ModelCall :=
            { modelId := env.GEMINI_MODEL,
              payload := .textOnly (documentPrompt documentFile (fd.text.getD "")) }
          match client call with
          | .success t => .ok (resp 200 (jsonSuccess t env.GEMINI_MODEL)) (some call)
          | .failure d => .thrown d (some call)

/-- Synthetic prompt built by the audio handler of `src/index.ts`. -/
def audioPrompt (audioFile : FormFile) (text : String) : String :=
  "\n    Audio file name: " ++ audioFile.name ++
  "\n    Audio type: " ++ audioFile.type ++
  "\n    File size: " ++ toString audioFile.size ++ " bytes" ++
  "\n    User prompt: " ++ text ++
  "\n    Process this audio according to the user's request."

/-- Translation of `handleGenerateFromAudio` from `src/index.ts`
(textual strategy: the file is described in a synthetic prompt). -/
def handleGenerateFromAudio (env : Env) (client : ModelClient) (req : BunReq) :
    HandlerOut :=
  match req.formResult with
  | .error e => .thrown e none
  | .ok fd =>
    if isFalsy fd.text then
      .ok (resp 400 (jsonError "Text prompt is required")) none
    else
      match fd.audio with
      | none => .ok (resp 400 (jsonError "Audio file is required")) none
      | some audioFile =>
        if allowedAudioTypes.contains audioFile.type = false then
          .ok (resp 400 (jsonError
            "Invalid audio format. Supported formats: MP3, MP4, WAV, OGG, WEBM")) none
        else
          let call : ModelCall :=
            { modelId := env.GEMINI_MODEL,
              payload := .textOnly (audioPrompt audioFile (fd.text.getD "")) }
          match client call with
          | .success t => .ok (resp 200 (jsonSuccess t env.GEMINI_MODEL)) (some call)
          | .failure d => .thrown d (some call)

/-- The dispatcher catch of `src/index.ts`: a thrown handler error becomes
a 500 response with a fixed body; the detail is only logged, never echoed. -/
def catchOut : HandlerOut → HttpResponse
  | .ok r _ => r
  | .thrown _ _ => resp 500 (jsonFailure "Internal server error")

/-- Translation of the `fetch` dispatcher of `src/index.ts`: OPTIONS is
special-cased first, then any non-POST method gets 405, then the four
paths are matched by exact string equality, with 404 for the rest. -/
def fetchHandler (env : Env) (client : ModelClient) (req : BunReq) :
    HttpResponse :=
  if req.method = "OPTIONS" then
    { status := 200, body := none }
  else if req.method ≠ "POST" then
    resp 405 (jsonError "Method not allowed")
  else if req.path = "/api/generate-text" then
    catchOut (handleGenerateText env client req)
  else if req.path = "/api/generate-from-image" then
    catchOut (handleGenerateFromImage env client req)
  else if req.path = "/api/generate-from-document" then
    catchOut (handleGenerateFromDocument env client req)
  else if req.path = "/api/generate-from-audio" then
    catchOut (handleGenerateFromAudio env client req)
  else
    resp 404 (jsonError "Route not found")

namespace DocumentHandlerTs

/-- Translation of `handleGenerateFromDocument` from
`src/handlers/documentHandler.ts` (binary strategy: the document bytes
are sent as an inline part next to the text prompt).  Validation is
identical to the textual variant in `src/index.ts`. -/
def handleGenerateFromDocument (env : Env) (client : ModelClient)
    (req : BunReq) : HandlerOut :=
  match req.formResult with
  | .error e => .thrown e none
  | .ok fd =>
    if isFalsy fd.text then
      .ok (resp 400 (jsonError "Text prompt is required")) none
    else
      match fd.document with
      | none => .ok (resp 400 (jsonError "Document file is required")) none
      | some documentFile =>
        if allowedDocumentTypes.contains documentFile.type = false then
          .ok (resp 400 (jsonError
            "Invalid document format. Supported formats: PDF, DOC, DOCX, TXT, MD")) none
        else
          let documentPart :=
            fileToGenerativePart documentFile.bytes documentFile.type
          let call : ModelCall :=
            { modelId := env.GEMINI_MODEL,
              payload := .textAndPart (fd.text.getD "") documentPart }
          match client call with
          | .success t => .ok (resp 200 (jsonSuccess t env.GEMINI_MODEL)) (some call)
          | .failure d => .thrown d (some call)

end DocumentHandlerTs

namespace AudioHandlerTs

/-- Translation of `handleGenerateFromAudio` from
`src/handlers/audioHandler.ts` (binary strategy: the audio bytes are sent
as an inline part next to the text prompt). -/
def handleGenerateFromAudio (env : Env) (client : ModelClient)
    (req : BunReq) : HandlerOut :=
  match req.formResult with
  | .error e => .thrown e none
  | .ok fd =>
    if isFalsy fd.text then
      .ok (resp 400 (jsonError "Text prompt is required")) none
    else
      match fd.audio with
      | none => .ok (resp 400 (jsonError "Audio file is required")) none
      | some audioFile =>
        if allowedAudioTypes.contains audioFile.type = false then
          .ok (resp 400 (jsonError
            "Invalid audio format. Supported formats: MP3, MP4, WAV, OGG, WEBM")) none
        else
          let audioPart := fileToGenerativePart audioFile.bytes audioFile.type
          let call : ModelCall :=
            { modelId := env.GEMINI_MODEL,
              payload := .textAndPart (fd.text.getD "") audioPart }
          match client call with
          | .success t => .ok (resp 200 (jsonSuccess t env.GEMINI_MODEL)) (some call)
          | .failure d => .thrown d (some call)

end AudioHandlerTs

/-- An uploaded file as the multer middleware hands it to an Express route
(`req.file`): original name, declared MIME type, size, and in-memory buffer. -/
structure MulterFile where
  originalname : String
  mimetype : String
  size : Nat
  buffer : List Nat
  deriving DecidableEq, Repr

namespace ExpressSrv

/-- Translation of the `app.post("/api/generate-text")` route of the
Express server: validation, model call, and a per-route catch mapping any
failure to 500 with a category-specific generic message. -/
def generateText (env : Env) (client : ModelClient) (text : Option String) :
    HttpResponse × Option ModelCall :=
  if isFalsy text then
    (resp 400 (jsonError "Text prompt is required"), none)
  else
    let call : ModelCall :=
      { modelId := env.GEMINI_MODEL, payload := .textOnly (text.getD "") }
    match client call with
    | .success t => (resp 200 (jsonSuccess t env.GEMINI_MODEL), some call)
    | .failure _ => (resp 500 (jsonFailure "Failed to generate text"), some call)

/-- Translation of the `app.post("/api/generate-from-image")` route of the
Express server. -/
def generateFromImage (env : Env) (client : ModelClient)
    (text : Option String) (file : Option MulterFile) :
    HttpResponse × Option ModelCall :=
  if isFalsy text then
    (resp 400 (jsonError "Text prompt is required"), none)
  else
    match file with
    | none => (resp 400 (jsonError "Image file is required"), none)
    | some imageFile =>
      if allowedImageTypes.contains imageFile.mimetype = false then
        (resp 400 (jsonError
          "Invalid image format. Supported formats: JPEG, PNG, WEBP, HEIC, HEIF"), none)
      else
        let imagePart := fileToGenerativePart imageFile.buffer imageFile.mimetype
        let call : ModelCall :=
          { modelId := env.GEMINI_VISION_MODEL,
            payload := .textAndPart (text.getD "") imagePart }
        match client call with
        | .success t => (resp 200 (jsonSuccess t env.GEMINI_VISION_MODEL), some call)
        | .failure _ =>
          (resp 500 (jsonFailure "Failed to generate content from image"), some call)

/-- Synthetic prompt built by the Express document route. -/
def documentPrompt (documentFile : MulterFile) (text : String) : String :=
  "Document name: " ++ documentFile.originalname ++
  "\nDocument type: " ++ documentFile.mimetype ++
  "\nUser prompt: " ++ text ++
  "\n\nProcess this document according to the user's request."

/-- Translation of the `app.post("/api/generate-from-document")` route of
the Express server (textual strategy). -/
def generateFromDocument (env : Env) (client : ModelClient)
    (text : Option String) (file : Option MulterFile) :
    HttpResponse × Option ModelCall :=
  if isFalsy text then
    (resp 400 (jsonError "Text prompt is required"), none)
  else
    match file with
    | none => (resp 400 (jsonError "Document file is required"), none)
    | some documentFile =>
      if allowedDocumentTypes.contains documentFile.mimetype = false then
        (resp 400 (jsonError
          "Invalid document format. Supported formats: PDF, DOC, DOCX, TXT, MD"), none)
      else
        let call : ModelCall :=
          { modelId := env.GEMINI_MODEL,
            payload := .textOnly (documentPrompt documentFile (text.getD "")) }
        match client call with
        | .success t => (resp 200 (jsonSuccess t env.GEMINI_MODEL), some call)
        | .failure _ =>
          (resp 500 (jsonFailure "Failed to generate content from document"), some call)

/-- Synthetic prompt built by the Express audio route. -/
def audioPrompt (audioFile : MulterFile) (text : String) : String :=
  "Audio file name: " ++ audioFile.originalname ++
  "\nAudio type: " ++ audioFile.mimetype ++
  "\nFile size: " ++ toString audioFile.size ++ " bytes" ++
  "\nUser prompt: " ++ text ++
  "\n\nProcess this audio according to the user's request."

/-- Translation of the `app.post("/api/generate-from-audio")` route of the
Express server (textual strategy). -/
def generateFromAudio (env : Env) (client : ModelClient)
    (text : Option String) (file : Option MulterFile) :
    HttpResponse × Option ModelCall :=
  if isFalsy text then
    (resp 400 (jsonError "Text prompt is required"), none)
  else
    match file with
    | none => (resp 400 (jsonError "Audio file is required"), none)
    | some audioFile =>
      if allowedAudioTypes.contains audioFile.mimetype = false then
        (resp 400 (jsonError
          "Invalid audio format. Supported formats: MP3, MP4, WAV, OGG, WEBM"), none)
      else
        let call : ModelCall :=
          { modelId := env.GEMINI_MODEL,
            payload := .textOnly (audioPrompt audioFile (text.getD "")) }
        match client call with
        | .success t => (resp 200 (jsonSuccess t env.GEMINI_MODEL), some call)
        | .failure _ =>
          (resp 500 (jsonFailure "Failed to generate content from audio"), some call)

/-- Modelled from the spec: acceptance decision of the multer upload
middleware configured in the Express server with
`limits: { fileSize: 10 * 1024 * 1024 }`.  The middleware itself is
library code outside the repository; the spec states that a payload of
exactly 10 MiB is accepted and anything over is rejected before the route
handler runs. -/
def multerAcceptsFile (f : MulterFile) : Bool :=
  f.size ≤ 10 * 1024 * 1024

/-- Modelled from the spec: composition of the multer middleware with a
file route.  A file over the configured limit is rejected before the route
handler runs — the framework produces the error response, the handler and
the Model Client are never invoked — so the pipeline yields `none` in that
case and the handler result otherwise. -/
def uploadPipeline
    (handler : Option String → Option MulterFile → HttpResponse × Option ModelCall)
    (text : Option String) (file : Option MulterFile) :
    Option (HttpResponse × Option ModelCall) :=
  match file with
  | some f =>
    if multerAcceptsFile f = false then none else some (handler text (some f))
  | none => some (handler text none)

end ExpressSrv

/-- Sample configuration used to instantiate universally quantified
theorems at concrete inputs. -/
def envW : Env :=
  { GEMINI_API_KEY := "key", GEMINI_MODEL := "gemini-pro"
    GEMINI_VISION_MODEL := "gemini-pro-vision", PORT := 3000 }

/-- A Model Client that always succeeds with a fixed text. -/
def okClient : ModelClient := fun _ => .success "generated"

/-- A Model Client that always fails with a vendor-specific detail. -/
def failClient : ModelClient := fun _ => .failure "quota exceeded: key abc123"

/-- Form data with an empty text field and no files. -/
def fdEmptyText : FormData :=
  { text := some "", image := none, document := none, audio := none }

/-- A POST to the text endpoint whose JSON body has an empty text field. -/
def reqEmptyText : BunReq :=
  { method := "POST", path := "/api/generate-text"
    contentType := some "application/json"
    jsonResult := .ok { text := some "" }
    formResult := .ok fdEmptyText }

/-- An image upload whose declared MIME type carries a parameter suffix. -/
def fileBadImage : FormFile :=
  { name := "a.jpg", type := "image/jpeg; charset=utf-8", size := 3, bytes := [1, 2, 3] }

/-- A document upload whose declared MIME type carries a parameter suffix. -/
def fileBadDocument : FormFile :=
  { name := "a.txt", type := "text/plain; charset=utf-8", size := 3, bytes := [4, 5, 6] }

/-- An audio upload whose declared MIME type is upper-cased. -/
def fileBadAudio : FormFile :=
  { name := "a.mp3", type := "AUDIO/MPEG", size := 3, bytes := [7, 8, 9] }

/-- Form data with a non-empty text and three files of disallowed MIME types. -/
def fdBadMime : FormData :=
  { text := some "describe"
    image := some fileBadImage
    document := some fileBadDocument
    audio := some fileBadAudio }

/-- A POST to the image endpoint carrying `fdBadMime`. -/
def reqBadMime : BunReq :=
  { method := "POST", path := "/api/generate-from-image"
    contentType := some "multipart/form-data; boundary=x"
    jsonResult := .error "not json"
    formResult := .ok fdBadMime }

/-- Form data with a non-empty text and no file fields. -/
def fdNoFiles : FormData :=
  { text := some "hi", image := none, document := none, audio := none }

/-- A POST to the image endpoint carrying `fdNoFiles`. -/
def reqNoFiles : BunReq :=
  { method := "POST", path := "/api/generate-from-image"
    contentType := some "multipart/form-data; boundary=x"
    jsonResult := .error "not json"
    formResult := .ok fdNoFiles }

/-- Common shape of every Bun-style handler outcome: a thrown body-read
error, a 400 rejection with a bare `{error}` body, a 200 success built by
`jsonSuccess` on the handler's model identifier, or a thrown model failure. -/
def handlerShape (h : HandlerOut) (m : String) : Prop :=
  (∃ e, h = .thrown e none) ∨
  (∃ msg, h = .ok (resp 400 (jsonError msg)) none) ∨
  (∃ t c, c.modelId = m ∧ h = .ok (resp 200 (jsonSuccess t m)) (some c)) ∨
  (∃ d c, c.modelId = m ∧ h = .thrown d (some c))

/-- Envelope discipline actually enforced by the Bun server: an OPTIONS
response with no body, a 200 success `{success: true, data, model}`, a
400/404/405 rejection with a bare `{error}` body (no `success`, `data` or
`model` field), or a 500 failure `{success: false, error}`. -/
def envelopeOk (r : HttpResponse) : Prop :=
  (r.status = 200 ∧ r.body = none) ∨
  (r.status = 200 ∧ ∃ d m, r.body = some (jsonSuccess d m)) ∨
  ((r.status = 400 ∨ r.status = 404 ∨ r.status = 405) ∧
    ∃ e, r.body = some (jsonError e)) ∨
  (r.status = 500 ∧ ∃ e, r.body = some (jsonFailure e))

/-- Envelope property exactly as the claim states it: every JSON response
body has a boolean `success` field, `data` present iff success is true,
`error` present iff success is false, and `model` present iff success is
true. -/
def isEnvelopeStated (b : JsonBody) : Prop :=
  (∃ s, b.success = some s) ∧
  (b.data.isSome = true ↔ b.success = some true) ∧
  (b.error.isSome = true ↔ b.success = some false) ∧
  (b.model.isSome = true ↔ b.success = some true)

/-- Claim C1 as stated: every response body the Bun server produces — on
every path, including 400 rejections — satisfies the stated envelope. -/
def claimC1Stated : Prop :=
  ∀ (env : Env) (client : ModelClient) (req : BunReq) (b : JsonBody),
    (fetchHandler env client req).body = some b → isEnvelopeStated b

/-- The four registered route paths of the dispatcher. -/
def knownPaths : List String :=
  ["/api/generate-text", "/api/generate-from-image",
   "/api/generate-from-document", "/api/generate-from-audio"]

/-- Claim C2 as stated (the part that pins routing of unknown paths): any
non-OPTIONS request to a path outside the four known ones yields HTTP 404
regardless of its method. -/
def claimC2Stated : Prop :=
  ∀ (env : Env) (client : ModelClient) (req : BunReq),
    req.method ≠ "OPTIONS" → req.path ∉ knownPaths →
    (fetchHandler env client req).status = 404

/-- A GET to an unregistered path. -/
def reqGetUnknown : BunReq :=
  { method := "GET", path := "/nope"
    contentType := none
    jsonResult := .error "no body"
    formResult := .error "no body" }

/-- A POST to a registered path with a trailing slash appended. -/
def reqPostTrailingSlash : BunReq :=
  { method := "POST", path := "/api/generate-text/"
    contentType := some "application/json"
    jsonResult := .ok { text := some "hello" }
    formResult := .error "not form data" }

/-- The four input categories of the gateway. -/
inductive Category where
  | text
  | image
  | document
  | audio
  deriving DecidableEq, Repr

/-- A text request that passes all validation of the text handler. -/
def validatedTextReq (req : BunReq) : Prop :=
  req.method = "POST" ∧ req.path = "/api/generate-text" ∧
  jsIncludes (req.contentType.getD "") "application/json" = true ∧
  ∃ body, req.jsonResult = .ok body ∧ isFalsy body.text = false

/-- An image request that passes all validation of the image handler. -/
def validatedImageReq (req : BunReq) : Prop :=
  req.method = "POST" ∧ req.path = "/api/generate-from-image" ∧
  ∃ fd f, req.formResult = .ok fd ∧ isFalsy fd.text = false ∧
    fd.image = some f ∧ f.type ∈ allowedImageTypes

/-- A document request that passes all validation of the document handler. -/
def validatedDocumentReq (req : BunReq) : Prop :=
  req.method = "POST" ∧ req.path = "/api/generate-from-document" ∧
  ∃ fd f, req.formResult = .ok fd ∧ isFalsy fd.text = false ∧
    fd.document = some f ∧ f.type ∈ allowedDocumentTypes

/-- An audio request that passes all validation of the audio handler. -/
def validatedAudioReq (req : BunReq) : Prop :=
  req.method = "POST" ∧ req.path = "/api/generate-from-audio" ∧
  ∃ fd f, req.formResult = .ok fd ∧ isFalsy fd.text = false ∧
    fd.audio = some f ∧ f.type ∈ allowedAudioTypes

/-- Claim C3 as stated, for the Bun server: there is a per-category
failure message, genuinely category-specific (injective), such that every
validated request whose model call fails yields HTTP 500 with
`{success: false, error: <that category's message>}`. -/
def claimC3Stated : Prop :=
  ∃ msg : Category → String, Function.Injective msg ∧
    ∀ (env : Env) (d : String) (req : BunReq),
      (validatedTextReq req →
        fetchHandler env (fun _ => .failure d) req =
          resp 500 (jsonFailure (msg .text))) ∧
      (validatedImageReq req →
        fetchHandler env (fun _ => .failure d) req =
          resp 500 (jsonFailure (msg .image))) ∧
      (validatedDocumentReq req →
        fetchHandler env (fun _ => .failure d) req =
          resp 500 (jsonFailure (msg .document))) ∧
      (validatedAudioReq req →
        fetchHandler env (fun _ => .failure d) req =
          resp 500 (jsonFailure (msg .audio)))

/-- A fully valid text request. -/
def reqTextOk : BunReq :=
  { method := "POST", path := "/api/generate-text"
    contentType := some "application/json"
    jsonResult := .ok { text := some "hello" }
    formResult := .error "not form data" }

/-- A valid image upload. -/
def fileImgOk : FormFile :=
  { name := "a.jpg", type := "image/jpeg", size := 3, bytes := [1, 2, 3] }

/-- A valid document upload. -/
def filePdfOk : FormFile :=
  { name := "a.pdf", type := "application/pdf", size := 3, bytes := [4, 5, 6] }

/-- A valid audio upload. -/
def fileMp3Ok : FormFile :=
  { name := "a.mp3", type := "audio/mpeg", size := 3, bytes := [7, 8, 9] }

/-- Form data with a non-empty text and three valid files. -/
def fdAllOk : FormData :=
  { text := some "describe"
    image := some fileImgOk
    document := some filePdfOk
    audio := some fileMp3Ok }

/-- A fully valid image request. -/
def reqImgOk : BunReq :=
  { method := "POST", path := "/api/generate-from-image"
    contentType := some "multipart/form-data; boundary=x"
    jsonResult := .error "not json"
    formResult := .ok fdAllOk }

/-- A fully valid document request. -/
def reqDocOk : BunReq :=
  { method := "POST", path := "/api/generate-from-document"
    contentType := some "multipart/form-data; boundary=x"
    jsonResult := .error "not json"
    formResult := .ok fdAllOk }

/-- A handler outcome "uses" model identifier `m` when every recorded
Model Client call selects `m` and every 200 success body reports `m` —
the identifier actually used for that request's call — in its `model`
field. -/
def usesModel (h : HandlerOut) (m : String) : Prop :=
  (∀ c, h.call = some c → c.modelId = m) ∧
  (∀ r oc b, h = .ok r oc → r.status = 200 → r.body = some b →
    ∃ c, oc = some c ∧ c.modelId = m ∧ b.model = some m)

/-- The Model Client call the image handler makes for `reqImgOk`. -/
def callImgOk : ModelCall :=
  { modelId := "gemini-pro-vision"
    payload := .textAndPart "describe" (fileToGenerativePart [1, 2, 3] "image/jpeg") }

/-- Claim C8 as stated, at the Bun server: a file field larger than
10 MiB never reaches handler logic, so no Model Client call is recorded
for any of the three file handlers. -/
def claimC8Stated : Prop :=
  ∀ (env : Env) (client : ModelClient) (req : BunReq) (fd : FormData)
    (f : FormFile),
    req.formResult = .ok fd →
    (fd.image = some f ∨ fd.document = some f ∨ fd.audio = some f) →
    10 * 1024 * 1024 < f.size →
    (handleGenerateFromImage env client req).call = none ∧
    (handleGenerateFromDocument env client req).call = none ∧
    (handleGenerateFromAudio env client req).call = none

/-- An image upload one byte over the 10 MiB limit (the byte buffer is
abstracted; the reported size is what a limit check would consult). -/
def fileBig : FormFile :=
  { name := "big.jpg", type := "image/jpeg", size := 10 * 1024 * 1024 + 1,
    bytes := [] }

/-- Form data carrying the oversized image. -/
def fdBig : FormData :=
  { text := some "hi", image := some fileBig, document := none, audio := none }

/-- A POST to the image endpoint carrying the oversized image. -/
def reqBigImage : BunReq :=
  { method := "POST", path := "/api/generate-from-image"
    contentType := some "multipart/form-data; boundary=x"
    jsonResult := .error "not json"
    formResult := .ok fdBig }

/-- The Model Client call the image handler makes for `reqBigImage`. -/
def callBig : ModelCall :=
  { modelId := "gemini-pro-vision"
    payload := .textAndPart "hi" (fileToGenerativePart [] "image/jpeg") }

/-- An image upload of exactly 10 MiB, as multer sees it. -/
def mfAtLimit : MulterFile :=
  { originalname := "a.jpg", mimetype := "image/jpeg",
    size := 10 * 1024 * 1024, buffer := [] }

/-- An image upload one byte over 10 MiB, as multer sees it. -/
def mfOverLimit : MulterFile :=
  { originalname := "a.jpg", mimetype := "image/jpeg",
    size := 10 * 1024 * 1024 + 1, buffer := [] }

/-- The oversized-image request with the reported size field zeroed. -/
def reqBigImageResized : BunReq :=
  { method := "POST", path := "/api/generate-from-image"
    contentType := some "multipart/form-data; boundary=x"
    jsonResult := .error "not json"
    formResult := .ok
      { text := some "hi"
        image := some { name := "big.jpg", type := "image/jpeg", size := 0, bytes := [] }
        document := none, audio := none } }

/-- Whether a Model Client outcome is a success. -/
def ModelOutcome.isSuccess : ModelOutcome → Bool
  | .success _ => true
  | .failure _ => false

/-- Presence pattern of the four envelope fields of a JSON body. -/
def bodyFields (b : JsonBody) : Bool × Bool × Bool × Bool :=
  (b.success.isSome, b.data.isSome, b.error.isSome, b.model.isSome)

/-- Observable envelope shape of a response: status code, which body
fields are present, and the reported model identifier. -/
def respShape (r : HttpResponse) :
    Nat × Option (Bool × Bool × Bool × Bool) × Option String :=
  (r.status, r.body.map bodyFields, r.body.bind JsonBody.model)

/-- A POST to the text endpoint with a JSON Content-Type and an
unparseable body. -/
def reqBadJson : BunReq :=
  { method := "POST", path := "/api/generate-text"
    contentType := some "application/json"
    jsonResult := .error "Unexpected end of JSON input"
    formResult := .error "not form data" }

/-- Exhaustive case analysis of the image handler of `src/index.ts`. -/
lemma image_handler_cases (env : Env) (client : ModelClient) (req : BunReq) :
    (∃ e, req.formResult = .error e ∧
      handleGenerateFromImage env client req = .thrown e none) ∨
    handleGenerateFromImage env client req =
      .ok (resp 400 (jsonError "Text prompt is required")) none ∨
    handleGenerateFromImage env client req =
      .ok (resp 400 (jsonError "Image file is required")) none ∨
    handleGenerateFromImage env client req =
      .ok (resp 400 (jsonError
        "Invalid image format. Supported formats: JPEG, PNG, WEBP, HEIC, HEIF")) none ∨
    (∃ t c, c.modelId = env.GEMINI_VISION_MODEL ∧ client c = .success t ∧
      handleGenerateFromImage env client req =
        .ok (resp 200 (jsonSuccess t env.GEMINI_VISION_MODEL)) (some c)) ∨
    (∃ d c, c.modelId = env.GEMINI_VISION_MODEL ∧ client c = .failure d ∧
      handleGenerateFromImage env client req = .thrown d (some c)) := by
  rcases hf : req.formResult with e | fd
  · exact Or.inl ⟨e, rfl, by simp [handleGenerateFromImage, hf]⟩
  · by_cases ht : isFalsy fd.text = true
    · exact Or.inr (Or.inl (by simp [handleGenerateFromImage, hf, ht]))
    · rcases hi : fd.image with _ | f
      · exact Or.inr (Or.inr (Or.inl (by simp [handleGenerateFromImage, hf, ht, hi])))
      · by_cases hc : f.type ∈ allowedImageTypes
        · rcases hcall : client (ModelCall.mk env.GEMINI_VISION_MODEL
            (Payload.textAndPart (fd.text.getD "")
              (fileToGenerativePart f.bytes f.type))) with t | d
          · refine Or.inr (Or.inr (Or.inr (Or.inr (Or.inl
              ⟨t, ModelCall.mk env.GEMINI_VISION_MODEL
                (Payload.textAndPart (fd.text.getD "")
                  (fileToGenerativePart f.bytes f.type)), rfl, hcall, ?_⟩))))
            simp [handleGenerateFromImage, hf, ht, hi, hc, hcall]
          · refine Or.inr (Or.inr (Or.inr (Or.inr (Or.inr
              ⟨d, ModelCall.mk env.GEMINI_VISION_MODEL
                (Payload.textAndPart (fd.text.getD "")
                  (fileToGenerativePart f.bytes f.type)), rfl, hcall, ?_⟩))))
            simp [handleGenerateFromImage, hf, ht, hi, hc, hcall]
        · exact Or.inr (Or.inr (Or.inr (Or.inl
            (by simp [handleGenerateFromImage, hf, ht, hi, hc]))))

/-- Exhaustive case analysis of the text handler of `src/index.ts`. -/
lemma text_handler_cases (env : Env) (client : ModelClient) (req : BunReq) :
    handleGenerateText env client req =
      .ok (resp 400 (jsonError "Content type must be application/json")) none ∨
    (∃ e, req.jsonResult = .error e ∧
      handleGenerateText env client req = .thrown e none) ∨
    handleGenerateText env client req =
      .ok (resp 400 (jsonError "Text prompt is required")) none ∨
    (∃ t c, c.modelId = env.GEMINI_MODEL ∧ client c = .success t ∧
      handleGenerateText env client req =
        .ok (resp 200 (jsonSuccess t env.GEMINI_MODEL)) (some c)) ∨
    (∃ d c, c.modelId = env.GEMINI_MODEL ∧ client c = .failure d ∧
      handleGenerateText env client req = .thrown d (some c)) := by
  by_cases hct : jsIncludes (req.contentType.getD "") "application/json" = false
  · exact Or.inl (by simp [handleGenerateText, hct])
  · rcases hj : req.jsonResult with e | body
    · exact Or.inr (Or.inl ⟨e, rfl, by simp [handleGenerateText, hct, hj]⟩)
    · by_cases ht : isFalsy body.text = true
      · exact Or.inr (Or.inr (Or.inl (by simp [handleGenerateText, hct, hj, ht])))
      · rcases hcall : client (ModelCall.mk env.GEMINI_MODEL
          (Payload.textOnly (body.text.getD ""))) with t | d
        · refine Or.inr (Or.inr (Or.inr (Or.inl
            ⟨t, ModelCall.mk env.GEMINI_MODEL
              (Payload.textOnly (body.text.getD "")), rfl, hcall, ?_⟩)))
          simp [handleGenerateText, hct, hj, ht, hcall]
        · refine Or.inr (Or.inr (Or.inr (Or.inr
            ⟨d, ModelCall.mk env.GEMINI_MODEL
              (Payload.textOnly (body.text.getD "")), rfl, hcall, ?_⟩)))
          simp [handleGenerateText, hct, hj, ht, hcall]

/-- Exhaustive case analysis of the document handler of `src/index.ts`. -/
lemma document_handler_cases (env : Env) (client : ModelClient) (req : BunReq) :
    (∃ e, req.formResult = .error e ∧
      handleGenerateFromDocument env client req = .thrown e none) ∨
    handleGenerateFromDocument env client req =
      .ok (resp 400 (jsonError "Text prompt is required")) none ∨
    handleGenerateFromDocument env client req =
      .ok (resp 400 (jsonError "Document file is required")) none ∨
    handleGenerateFromDocument env client req =
      .ok (resp 400 (jsonError
        "Invalid document format. Supported formats: PDF, DOC, DOCX, TXT, MD")) none ∨
    (∃ t c, c.modelId = env.GEMINI_MODEL ∧ client c = .success t ∧
      handleGenerateFromDocument env client req =
        .ok (resp 200 (jsonSuccess t env.GEMINI_MODEL)) (some c)) ∨
    (∃ d c, c.modelId = env.GEMINI_MODEL ∧ client c = .failure d ∧
      handleGenerateFromDocument env client req = .thrown d (some c)) := by
  rcases hf : req.formResult with e | fd
  · exact Or.inl ⟨e, rfl, by simp [handleGenerateFromDocument, hf]⟩
  · by_cases ht : isFalsy fd.text = true
    · exact Or.inr (Or.inl (by simp [handleGenerateFromDocument, hf, ht]))
    · rcases hi : fd.document with _ | f
      · exact Or.inr (Or.inr (Or.inl
          (by simp [handleGenerateFromDocument, hf, ht, hi])))
      · by_cases hc : f.type ∈ allowedDocumentTypes
        · rcases hcall : client (ModelCall.mk env.GEMINI_MODEL
            (Payload.textOnly (documentPrompt f (fd.text.getD "")))) with t | d
          · refine Or.inr (Or.inr (Or.inr (Or.inr (Or.inl
              ⟨t, ModelCall.mk env.GEMINI_MODEL
                (Payload.textOnly (documentPrompt f (fd.text.getD ""))),
                rfl, hcall, ?_⟩))))
            simp [handleGenerateFromDocument, hf, ht, hi, hc, hcall]
          · refine Or.inr (Or.inr (Or.inr (Or.inr (Or.inr
              ⟨d, ModelCall.mk env.GEMINI_MODEL
                (Payload.textOnly (documentPrompt f (fd.text.getD ""))),
                rfl, hcall, ?_⟩))))
            simp [handleGenerateFromDocument, hf, ht, hi, hc, hcall]
        · exact Or.inr (Or.inr (Or.inr (Or.inl
            (by simp [handleGenerateFromDocument, hf, ht, hi, hc]))))

/-- Exhaustive case analysis of the audio handler of `src/index.ts`. -/
lemma audio_handler_cases (env : Env) (client : ModelClient) (req : BunReq) :
    (∃ e, req.formResult = .error e ∧
      handleGenerateFromAudio env client req = .thrown e none) ∨
    handleGenerateFromAudio env client req =
      .ok (resp 400 (jsonError "Text prompt is required")) none ∨
    handleGenerateFromAudio env client req =
      .ok (resp 400 (jsonError "Audio file is required")) none ∨
    handleGenerateFromAudio env client req =
      .ok (resp 400 (jsonError
        "Invalid audio format. Supported formats: MP3, MP4, WAV, OGG, WEBM")) none ∨
    (∃ t c, c.modelId = env.GEMINI_MODEL ∧ client c = .success t ∧
      handleGenerateFromAudio env client req =
        .ok (resp 200 (jsonSuccess t env.GEMINI_MODEL)) (some c)) ∨
    (∃ d c, c.modelId = env.GEMINI_MODEL ∧ client c = .failure d ∧
      handleGenerateFromAudio env client req = .thrown d (some c)) := by
  rcases hf : req.formResult with e | fd
  · exact Or.inl ⟨e, rfl, by simp [handleGenerateFromAudio, hf]⟩
  · by_cases ht : isFalsy fd.text = true
    · exact Or.inr (Or.inl (by simp [handleGenerateFromAudio, hf, ht]))
    · rcases hi : fd.audio with _ | f
      · exact Or.inr (Or.inr (Or.inl
          (by simp [handleGenerateFromAudio, hf, ht, hi])))
      · by_cases hc : f.type ∈ allowedAudioTypes
        · rcases hcall : client (ModelCall.mk env.GEMINI_MODEL
            (Payload.textOnly (audioPrompt f (fd.text.getD "")))) with t | d
          · refine Or.inr (Or.inr (Or.inr (Or.inr (Or.inl
              ⟨t, ModelCall.mk env.GEMINI_MODEL
                (Payload.textOnly (audioPrompt f (fd.text.getD ""))),
                rfl, hcall, ?_⟩))))
            simp [handleGenerateFromAudio, hf, ht, hi, hc, hcall]
          · refine Or.inr (Or.inr (Or.inr (Or.inr (Or.inr
              ⟨d, ModelCall.mk env.GEMINI_MODEL
                (Payload.textOnly (audioPrompt f (fd.text.getD ""))),
                rfl, hcall, ?_⟩))))
            simp [handleGenerateFromAudio, hf, ht, hi, hc, hcall]
        · exact Or.inr (Or.inr (Or.inr (Or.inl
            (by simp [handleGenerateFromAudio, hf, ht, hi, hc]))))

/-- Exhaustive case analysis of the binary-strategy document handler of
`src/handlers/documentHandler.ts`. -/
lemma document_binary_handler_cases (env : Env) (client : ModelClient)
    (req : BunReq) :
    (∃ e, req.formResult = .error e ∧
      DocumentHandlerTs.handleGenerateFromDocument env client req = .thrown e none) ∨
    DocumentHandlerTs.handleGenerateFromDocument env client req =
      .ok (resp 400 (jsonError "Text prompt is required")) none ∨
    DocumentHandlerTs.handleGenerateFromDocument env client req =
      .ok (resp 400 (jsonError "Document file is required")) none ∨
    DocumentHandlerTs.handleGenerateFromDocument env client req =
      .ok (resp 400 (jsonError
        "Invalid document format. Supported formats: PDF, DOC, DOCX, TXT, MD")) none ∨
    (∃ t c, c.modelId = env.GEMINI_MODEL ∧ client c = .success t ∧
      DocumentHandlerTs.handleGenerateFromDocument env client req =
        .ok (resp 200 (jsonSuccess t env.GEMINI_MODEL)) (some c)) ∨
    (∃ d c, c.modelId = env.GEMINI_MODEL ∧ client c = .failure d ∧
      DocumentHandlerTs.handleGenerateFromDocument env client req =
        .thrown d (some c)) := by
  rcases hf : req.formResult with e | fd
  · exact Or.inl ⟨e, rfl,
      by simp [DocumentHandlerTs.handleGenerateFromDocument, hf]⟩
  · by_cases ht : isFalsy fd.text = true
    · exact Or.inr (Or.inl
        (by simp [DocumentHandlerTs.handleGenerateFromDocument, hf, ht]))
    · rcases hi : fd.document with _ | f
      · exact Or.inr (Or.inr (Or.inl
          (by simp [DocumentHandlerTs.handleGenerateFromDocument, hf, ht, hi])))
      · by_cases hc : f.type ∈ allowedDocumentTypes
        · rcases hcall : client (ModelCall.mk env.GEMINI_MODEL
            (Payload.textAndPart (fd.text.getD "")
              (fileToGenerativePart f.bytes f.type))) with t | d
          · refine Or.inr (Or.inr (Or.inr (Or.inr (Or.inl
              ⟨t, ModelCall.mk env.GEMINI_MODEL
                (Payload.textAndPart (fd.text.getD "")
                  (fileToGenerativePart f.bytes f.type)), rfl, hcall, ?_⟩))))
            simp [DocumentHandlerTs.handleGenerateFromDocument, hf, ht, hi, hc, hcall]
          · refine Or.inr (Or.inr (Or.inr (Or.inr (Or.inr
              ⟨d, ModelCall.mk env.GEMINI_MODEL
                (Payload.textAndPart (fd.text.getD "")
                  (fileToGenerativePart f.bytes f.type)), rfl, hcall, ?_⟩))))
            simp [DocumentHandlerTs.handleGenerateFromDocument, hf, ht, hi, hc, hcall]
        · exact Or.inr (Or.inr (Or.inr (Or.inl
            (by simp [DocumentHandlerTs.handleGenerateFromDocument, hf, ht, hi, hc]))))

/-- Exhaustive case analysis of the binary-strategy audio handler of
`src/handlers/audioHandler.ts`. -/
lemma audio_binary_handler_cases (env : Env) (client : ModelClient)
    (req : BunReq) :
    (∃ e, req.formResult = .error e ∧
      AudioHandlerTs.handleGenerateFromAudio env client req = .thrown e none) ∨
    AudioHandlerTs.handleGenerateFromAudio env client req =
      .ok (resp 400 (jsonError "Text prompt is required")) none ∨
    AudioHandlerTs.handleGenerateFromAudio env client req =
      .ok (resp 400 (jsonError "Audio file is required")) none ∨
    AudioHandlerTs.handleGenerateFromAudio env client req =
      .ok (resp 400 (jsonError
        "Invalid audio format. Supported formats: MP3, MP4, WAV, OGG, WEBM")) none ∨
    (∃ t c, c.modelId = env.GEMINI_MODEL ∧ client c = .success t ∧
      AudioHandlerTs.handleGenerateFromAudio env client req =
        .ok (resp 200 (jsonSuccess t env.GEMINI_MODEL)) (some c)) ∨
    (∃ d c, c.modelId = env.GEMINI_MODEL ∧ client c = .failure d ∧
      AudioHandlerTs.handleGenerateFromAudio env client req =
        .thrown d (some c)) := by
  rcases hf : req.formResult with e | fd
  · exact Or.inl ⟨e, rfl, by simp [AudioHandlerTs.handleGenerateFromAudio, hf]⟩
  · by_cases ht : isFalsy fd.text = true
    · exact Or.inr (Or.inl
        (by simp [AudioHandlerTs.handleGenerateFromAudio, hf, ht]))
    · rcases hi : fd.audio with _ | f
      · exact Or.inr (Or.inr (Or.inl
          (by simp [AudioHandlerTs.handleGenerateFromAudio, hf, ht, hi])))
      · by_cases hc : f.type ∈ allowedAudioTypes
        · rcases hcall : client (ModelCall.mk env.GEMINI_MODEL
            (Payload.textAndPart (fd.text.getD "")
              (fileToGenerativePart f.bytes f.type))) with t | d
          · refine Or.inr (Or.inr (Or.inr (Or.inr (Or.inl
              ⟨t, ModelCall.mk env.GEMINI_MODEL
                (Payload.textAndPart (fd.text.getD "")
                  (fileToGenerativePart f.bytes f.type)), rfl, hcall, ?_⟩))))
            simp [AudioHandlerTs.handleGenerateFromAudio, hf, ht, hi, hc, hcall]
          · refine Or.inr (Or.inr (Or.inr (Or.inr (Or.inr
              ⟨d, ModelCall.mk env.GEMINI_MODEL
                (Payload.textAndPart (fd.text.getD "")
                  (fileToGenerativePart f.bytes f.type)), rfl, hcall, ?_⟩))))
            simp [AudioHandlerTs.handleGenerateFromAudio, hf, ht, hi, hc, hcall]
        · exact Or.inr (Or.inr (Or.inr (Or.inl
            (by simp [AudioHandlerTs.handleGenerateFromAudio, hf, ht, hi, hc]))))

/-- C4: for every request to any of the four handlers in which the `text`
field is missing or empty, the response is HTTP 400 with an error message
and the Model Client is never invoked (no call is recorded); this holds in
both the Bun server and the Express server. -/
theorem c4_empty_text_rejected_without_model_call
    (env : Env) (client : ModelClient) (req : BunReq)
    (body : TextBody) (fd : FormData) (tex : Option String)
    (file : Option MulterFile)
    (hct : jsIncludes (req.contentType.getD "") "application/json" = true)
    (hjson : req.jsonResult = .ok body) (hform : req.formResult = .ok fd)
    (htb : isFalsy body.text = true) (htf : isFalsy fd.text = true)
    (htex : isFalsy tex = true) :
    handleGenerateText env client req =
      .ok (resp 400 (jsonError "Text prompt is required")) none ∧
    handleGenerateFromImage env client req =
      .ok (resp 400 (jsonError "Text prompt is required")) none ∧
    handleGenerateFromDocument env client req =
      .ok (resp 400 (jsonError "Text prompt is required")) none ∧
    handleGenerateFromAudio env client req =
      .ok (resp 400 (jsonError "Text prompt is required")) none ∧
    ExpressSrv.generateText env client tex =
      (resp 400 (jsonError "Text prompt is required"), none) ∧
    ExpressSrv.generateFromImage env client tex file =
      (resp 400 (jsonError "Text prompt is required"), none) ∧
    ExpressSrv.generateFromDocument env client tex file =
      (resp 400 (jsonError "Text prompt is required"), none) ∧
    ExpressSrv.generateFromAudio env client tex file =
      (resp 400 (jsonError "Text prompt is required"), none) := by
  refine ⟨?_, ?_, ?_, ?_, ?_, ?_, ?_, ?_⟩ <;>
    simp [handleGenerateText, handleGenerateFromImage, handleGenerateFromDocument,
      handleGenerateFromAudio, ExpressSrv.generateText, ExpressSrv.generateFromImage,
      ExpressSrv.generateFromDocument, ExpressSrv.generateFromAudio,
      hct, hjson, hform, htb, htf, htex]

/-- Witness for C4 at a concrete request with an empty text field. -/
theorem c4_empty_text_rejected_without_model_call_witness :
    handleGenerateText envW okClient reqEmptyText =
      .ok (resp 400 (jsonError "Text prompt is required")) none ∧
    handleGenerateFromImage envW okClient reqEmptyText =
      .ok (resp 400 (jsonError "Text prompt is required")) none ∧
    handleGenerateFromDocument envW okClient reqEmptyText =
      .ok (resp 400 (jsonError "Text prompt is required")) none ∧
    handleGenerateFromAudio envW okClient reqEmptyText =
      .ok (resp 400 (jsonError "Text prompt is required")) none ∧
    ExpressSrv.generateText envW okClient (some "") =
      (resp 400 (jsonError "Text prompt is required"), none) ∧
    ExpressSrv.generateFromImage envW okClient (some "") none =
      (resp 400 (jsonError "Text prompt is required"), none) ∧
    ExpressSrv.generateFromDocument envW okClient (some "") none =
      (resp 400 (jsonError "Text prompt is required"), none) ∧
    ExpressSrv.generateFromAudio envW okClient (some "") none =
      (resp 400 (jsonError "Text prompt is required"), none) :=
  c4_empty_text_rejected_without_model_call envW okClient reqEmptyText
    { text := some "" } fdEmptyText (some "") none
    (by decide) rfl rfl (by decide) (by decide) (by decide)

/-- C5: MIME validation in each file handler of the Bun server is an exact
case-sensitive membership test in the category's fixed allow-list, with no
stripping of parameters: the handler produces the invalid-format rejection
exactly when the declared type is outside the list, `image/jpeg` is in the
image list while `image/jpeg; charset=utf-8` and `IMAGE/JPEG` are not, and
`text/plain; charset=utf-8` is outside the document list although
`text/plain` is in it. -/
theorem c5_mime_validation_exact_membership
    (env : Env) (client : ModelClient) (req : BunReq) (fd : FormData)
    (f1 f2 f3 : FormFile)
    (hform : req.formResult = .ok fd) (htext : isFalsy fd.text = false)
    (himg : fd.image = some f1) (hdoc : fd.document = some f2)
    (haud : fd.audio = some f3) :
    (handleGenerateFromImage env client req =
        .ok (resp 400 (jsonError
          "Invalid image format. Supported formats: JPEG, PNG, WEBP, HEIC, HEIF")) none
      ↔ f1.type ∉ allowedImageTypes) ∧
    (handleGenerateFromDocument env client req =
        .ok (resp 400 (jsonError
          "Invalid document format. Supported formats: PDF, DOC, DOCX, TXT, MD")) none
      ↔ f2.type ∉ allowedDocumentTypes) ∧
    (handleGenerateFromAudio env client req =
        .ok (resp 400 (jsonError
          "Invalid audio format. Supported formats: MP3, MP4, WAV, OGG, WEBM")) none
      ↔ f3.type ∉ allowedAudioTypes) ∧
    "image/jpeg" ∈ allowedImageTypes ∧
    "image/jpeg; charset=utf-8" ∉ allowedImageTypes ∧
    "IMAGE/JPEG" ∉ allowedImageTypes ∧
    "text/plain" ∈ allowedDocumentTypes ∧
    "text/plain; charset=utf-8" ∉ allowedDocumentTypes := by
  refine ⟨?_, ?_, ?_, by decide, by decide, by decide, by decide, by decide⟩
  · constructor
    · intro hmime
      by_contra hmem
      rcases hcall : client (ModelCall.mk env.GEMINI_VISION_MODEL
        (Payload.textAndPart (fd.text.getD "")
          (fileToGenerativePart f1.bytes f1.type))) with t | d <;>
        simp [handleGenerateFromImage, hform, htext, himg, hmem, hcall] at hmime
    · intro hmem
      simp [handleGenerateFromImage, hform, htext, himg, hmem]
  · constructor
    · intro hmime
      by_contra hmem
      rcases hcall : client (ModelCall.mk env.GEMINI_MODEL
        (Payload.textOnly (documentPrompt f2 (fd.text.getD "")))) with t | d <;>
        simp [handleGenerateFromDocument, hform, htext, hdoc, hmem, hcall] at hmime
    · intro hmem
      simp [handleGenerateFromDocument, hform, htext, hdoc, hmem]
  · constructor
    · intro hmime
      by_contra hmem
      rcases hcall : client (ModelCall.mk env.GEMINI_MODEL
        (Payload.textOnly (audioPrompt f3 (fd.text.getD "")))) with t | d <;>
        simp [handleGenerateFromAudio, hform, htext, haud, hmem, hcall] at hmime
    · intro hmem
      simp [handleGenerateFromAudio, hform, htext, haud, hmem]

/-- Witness for C5 at a concrete request whose three files all carry
disallowed MIME types (parameter suffix, parameter suffix, upper case). -/
theorem c5_mime_validation_exact_membership_witness :
    handleGenerateFromImage envW okClient reqBadMime =
      .ok (resp 400 (jsonError
        "Invalid image format. Supported formats: JPEG, PNG, WEBP, HEIC, HEIF")) none ∧
    handleGenerateFromDocument envW okClient reqBadMime =
      .ok (resp 400 (jsonError
        "Invalid document format. Supported formats: PDF, DOC, DOCX, TXT, MD")) none ∧
    "image/jpeg" ∈ allowedImageTypes :=
  ⟨(c5_mime_validation_exact_membership envW okClient reqBadMime fdBadMime
      fileBadImage fileBadDocument fileBadAudio rfl (by decide) rfl rfl rfl).1.mpr
      (by decide),
   (c5_mime_validation_exact_membership envW okClient reqBadMime fdBadMime
      fileBadImage fileBadDocument fileBadAudio rfl (by decide) rfl rfl rfl).2.1.mpr
      (by decide),
   (c5_mime_validation_exact_membership envW okClient reqBadMime fdBadMime
      fileBadImage fileBadDocument fileBadAudio rfl (by decide) rfl rfl rfl).2.2.2.1⟩

/-- C6: in each of the three file handlers, an absent file field yields
HTTP 400 stating the file is required, and a present file with a MIME type
outside the category allow-list yields HTTP 400 whose error message lists
the allowed formats; in both cases no Model Client call is made. -/
theorem c6_missing_file_and_bad_mime_rejected
    (env : Env) (client : ModelClient) (req : BunReq) (fd : FormData)
    (hform : req.formResult = .ok fd) (htext : isFalsy fd.text = false) :
    (fd.image = none → handleGenerateFromImage env client req =
      .ok (resp 400 (jsonError "Image file is required")) none) ∧
    (∀ f, fd.image = some f → f.type ∉ allowedImageTypes →
      handleGenerateFromImage env client req =
        .ok (resp 400 (jsonError
          "Invalid image format. Supported formats: JPEG, PNG, WEBP, HEIC, HEIF")) none) ∧
    (fd.document = none → handleGenerateFromDocument env client req =
      .ok (resp 400 (jsonError "Document file is required")) none) ∧
    (∀ f, fd.document = some f → f.type ∉ allowedDocumentTypes →
      handleGenerateFromDocument env client req =
        .ok (resp 400 (jsonError
          "Invalid document format. Supported formats: PDF, DOC, DOCX, TXT, MD")) none) ∧
    (fd.audio = none → handleGenerateFromAudio env client req =
      .ok (resp 400 (jsonError "Audio file is required")) none) ∧
    (∀ f, fd.audio = some f → f.type ∉ allowedAudioTypes →
      handleGenerateFromAudio env client req =
        .ok (resp 400 (jsonError
          "Invalid audio format. Supported formats: MP3, MP4, WAV, OGG, WEBM")) none) := by
  refine ⟨?_, ?_, ?_, ?_, ?_, ?_⟩
  · intro hi; simp [handleGenerateFromImage, hform, htext, hi]
  · intro f hi hm; simp [handleGenerateFromImage, hform, htext, hi, hm]
  · intro hi; simp [handleGenerateFromDocument, hform, htext, hi]
  · intro f hi hm; simp [handleGenerateFromDocument, hform, htext, hi, hm]
  · intro hi; simp [handleGenerateFromAudio, hform, htext, hi]
  · intro f hi hm; simp [handleGenerateFromAudio, hform, htext, hi, hm]

/-- Witness for C6: missing files are rejected at a request carrying no
file fields, and a disallowed MIME type is rejected at a request carrying
a parameterized image type. -/
theorem c6_missing_file_and_bad_mime_rejected_witness :
    handleGenerateFromImage envW okClient reqNoFiles =
      .ok (resp 400 (jsonError "Image file is required")) none ∧
    handleGenerateFromDocument envW okClient reqNoFiles =
      .ok (resp 400 (jsonError "Document file is required")) none ∧
    handleGenerateFromAudio envW okClient reqNoFiles =
      .ok (resp 400 (jsonError "Audio file is required")) none ∧
    handleGenerateFromImage envW okClient reqBadMime =
      .ok (resp 400 (jsonError
        "Invalid image format. Supported formats: JPEG, PNG, WEBP, HEIC, HEIF")) none :=
  ⟨(c6_missing_file_and_bad_mime_rejected envW okClient reqNoFiles fdNoFiles
      rfl (by decide)).1 rfl,
   (c6_missing_file_and_bad_mime_rejected envW okClient reqNoFiles fdNoFiles
      rfl (by decide)).2.2.1 rfl,
   (c6_missing_file_and_bad_mime_rejected envW okClient reqNoFiles fdNoFiles
      rfl (by decide)).2.2.2.2.1 rfl,
   (c6_missing_file_and_bad_mime_rejected envW okClient reqBadMime fdBadMime
      rfl (by decide)).2.1 fileBadImage rfl (by decide)⟩

/-- The text handler has the common shape on the text model identifier. -/
lemma text_handler_shape (env : Env) (client : ModelClient) (req : BunReq) :
    handlerShape (handleGenerateText env client req) env.GEMINI_MODEL := by
  rcases text_handler_cases env client req with
    h | ⟨e, -, h⟩ | h | ⟨t, c, hid, -, h⟩ | ⟨d, c, hid, -, h⟩
  · exact Or.inr (Or.inl ⟨_, h⟩)
  · exact Or.inl ⟨e, h⟩
  · exact Or.inr (Or.inl ⟨_, h⟩)
  · exact Or.inr (Or.inr (Or.inl ⟨t, c, hid, h⟩))
  · exact Or.inr (Or.inr (Or.inr ⟨d, c, hid, h⟩))

/-- The image handler has the common shape on the vision model identifier. -/
lemma image_handler_shape (env : Env) (client : ModelClient) (req : BunReq) :
    handlerShape (handleGenerateFromImage env client req) env.GEMINI_VISION_MODEL := by
  rcases image_handler_cases env client req with
    ⟨e, -, h⟩ | h | h | h | ⟨t, c, hid, -, h⟩ | ⟨d, c, hid, -, h⟩
  · exact Or.inl ⟨e, h⟩
  · exact Or.inr (Or.inl ⟨_, h⟩)
  · exact Or.inr (Or.inl ⟨_, h⟩)
  · exact Or.inr (Or.inl ⟨_, h⟩)
  · exact Or.inr (Or.inr (Or.inl ⟨t, c, hid, h⟩))
  · exact Or.inr (Or.inr (Or.inr ⟨d, c, hid, h⟩))

/-- The document handler has the common shape on the text model identifier. -/
lemma document_handler_shape (env : Env) (client : ModelClient) (req : BunReq) :
    handlerShape (handleGenerateFromDocument env client req) env.GEMINI_MODEL := by
  rcases document_handler_cases env client req with
    ⟨e, -, h⟩ | h | h | h | ⟨t, c, hid, -, h⟩ | ⟨d, c, hid, -, h⟩
  · exact Or.inl ⟨e, h⟩
  · exact Or.inr (Or.inl ⟨_, h⟩)
  · exact Or.inr (Or.inl ⟨_, h⟩)
  · exact Or.inr (Or.inl ⟨_, h⟩)
  · exact Or.inr (Or.inr (Or.inl ⟨t, c, hid, h⟩))
  · exact Or.inr (Or.inr (Or.inr ⟨d, c, hid, h⟩))

/-- The audio handler has the common shape on the text model identifier. -/
lemma audio_handler_shape (env : Env) (client : ModelClient) (req : BunReq) :
    handlerShape (handleGenerateFromAudio env client req) env.GEMINI_MODEL := by
  rcases audio_handler_cases env client req with
    ⟨e, -, h⟩ | h | h | h | ⟨t, c, hid, -, h⟩ | ⟨d, c, hid, -, h⟩
  · exact Or.inl ⟨e, h⟩
  · exact Or.inr (Or.inl ⟨_, h⟩)
  · exact Or.inr (Or.inl ⟨_, h⟩)
  · exact Or.inr (Or.inl ⟨_, h⟩)
  · exact Or.inr (Or.inr (Or.inl ⟨t, c, hid, h⟩))
  · exact Or.inr (Or.inr (Or.inr ⟨d, c, hid, h⟩))

/-- The binary-strategy document handler has the common shape on the text
model identifier. -/
lemma document_binary_handler_shape (env : Env) (client : ModelClient)
    (req : BunReq) :
    handlerShape (DocumentHandlerTs.handleGenerateFromDocument env client req)
      env.GEMINI_MODEL := by
  rcases document_binary_handler_cases env client req with
    ⟨e, -, h⟩ | h | h | h | ⟨t, c, hid, -, h⟩ | ⟨d, c, hid, -, h⟩
  · exact Or.inl ⟨e, h⟩
  · exact Or.inr (Or.inl ⟨_, h⟩)
  · exact Or.inr (Or.inl ⟨_, h⟩)
  · exact Or.inr (Or.inl ⟨_, h⟩)
  · exact Or.inr (Or.inr (Or.inl ⟨t, c, hid, h⟩))
  · exact Or.inr (Or.inr (Or.inr ⟨d, c, hid, h⟩))

/-- The binary-strategy audio handler has the common shape on the text
model identifier. -/
lemma audio_binary_handler_shape (env : Env) (client : ModelClient)
    (req : BunReq) :
    handlerShape (AudioHandlerTs.handleGenerateFromAudio env client req)
      env.GEMINI_MODEL := by
  rcases audio_binary_handler_cases env client req with
    ⟨e, -, h⟩ | h | h | h | ⟨t, c, hid, -, h⟩ | ⟨d, c, hid, -, h⟩
  · exact Or.inl ⟨e, h⟩
  · exact Or.inr (Or.inl ⟨_, h⟩)
  · exact Or.inr (Or.inl ⟨_, h⟩)
  · exact Or.inr (Or.inl ⟨_, h⟩)
  · exact Or.inr (Or.inr (Or.inl ⟨t, c, hid, h⟩))
  · exact Or.inr (Or.inr (Or.inr ⟨d, c, hid, h⟩))

/-- Passing a handler outcome of the common shape through the dispatcher
catch produces a response obeying the envelope discipline. -/
lemma envelopeOk_catchOut {h : HandlerOut} {m : String}
    (hs : handlerShape h m) : envelopeOk (catchOut h) := by
  rcases hs with ⟨e, he⟩ | ⟨msg, he⟩ | ⟨t, c, -, he⟩ | ⟨d, c, -, he⟩ <;> rw [he]
  · exact Or.inr (Or.inr (Or.inr ⟨rfl, "Internal server error", rfl⟩))
  · exact Or.inr (Or.inr (Or.inl ⟨Or.inl rfl, msg, rfl⟩))
  · exact Or.inr (Or.inl ⟨rfl, t, m, rfl⟩)
  · exact Or.inr (Or.inr (Or.inr ⟨rfl, "Internal server error", rfl⟩))

/-- C1 is false as stated: the 400 rejection of an empty text prompt has
body `{error: "Text prompt is required"}` with no `success` field at all. -/
theorem c1_counterexample_400_lacks_success : ¬ claimC1Stated := by
  intro h
  obtain ⟨s, hs⟩ :=
    (h envW okClient reqEmptyText (jsonError "Text prompt is required")
      (by decide)).1
  exact Option.noConfusion hs

/-- C1 amended: every response of the Bun server obeys the envelope
discipline the code actually enforces — 200 success bodies are
`{success: true, data, model}`, 500 bodies are `{success: false, error}`,
400/404/405 bodies are bare `{error}` objects without a `success`, `data`
or `model` field, and the OPTIONS response has no body; in particular
exactly one of `data`/`error` is present in every JSON body. -/
theorem c1_amended_envelope (env : Env) (client : ModelClient) (req : BunReq) :
    envelopeOk (fetchHandler env client req) := by
  unfold fetchHandler
  by_cases hm : req.method = "OPTIONS"
  · rw [if_pos hm]
    exact Or.inl ⟨rfl, rfl⟩
  · rw [if_neg hm]
    by_cases hp : req.method = "POST"
    · rw [if_neg (not_not_intro hp)]
      by_cases h1 : req.path = "/api/generate-text"
      · rw [if_pos h1]
        exact envelopeOk_catchOut (text_handler_shape env client req)
      · rw [if_neg h1]
        by_cases h2 : req.path = "/api/generate-from-image"
        · rw [if_pos h2]
          exact envelopeOk_catchOut (image_handler_shape env client req)
        · rw [if_neg h2]
          by_cases h3 : req.path = "/api/generate-from-document"
          · rw [if_pos h3]
            exact envelopeOk_catchOut (document_handler_shape env client req)
          · rw [if_neg h3]
            by_cases h4 : req.path = "/api/generate-from-audio"
            · rw [if_pos h4]
              exact envelopeOk_catchOut (audio_handler_shape env client req)
            · rw [if_neg h4]
              exact Or.inr (Or.inr (Or.inl ⟨Or.inr (Or.inl rfl), _, rfl⟩))
    · rw [if_pos hp]
      exact Or.inr (Or.inr (Or.inl ⟨Or.inr (Or.inr rfl), _, rfl⟩))

/-- C2 is false as stated: a GET to the unknown path `/nope` yields 405,
not 404, because the dispatcher tests the method before routing. -/
theorem c2_counterexample_get_unknown_is_405 : ¬ claimC2Stated := by
  intro h
  have h404 := h envW okClient reqGetUnknown (by decide) (by decide)
  have h405 : (fetchHandler envW okClient reqGetUnknown).status = 405 := by decide
  rw [h404] at h405
  exact absurd h405 (by decide)

/-- C2 amended: OPTIONS aside, any non-POST method yields 405 regardless
of path (even unknown ones); a POST to a path outside the four known ones
yields 404; a POST to a known path dispatches to the corresponding handler
through the top-level catch; matching is exact string equality, so a
trailing slash falls into the 404 case. -/
theorem c2_amended_dispatch (env : Env) (client : ModelClient) (req : BunReq)
    (hopt : req.method ≠ "OPTIONS") :
    (req.method ≠ "POST" →
      fetchHandler env client req = resp 405 (jsonError "Method not allowed")) ∧
    (req.method = "POST" → req.path ∉ knownPaths →
      fetchHandler env client req = resp 404 (jsonError "Route not found")) ∧
    (req.method = "POST" → req.path = "/api/generate-text" →
      fetchHandler env client req = catchOut (handleGenerateText env client req)) ∧
    (req.method = "POST" → req.path = "/api/generate-from-image" →
      fetchHandler env client req =
        catchOut (handleGenerateFromImage env client req)) ∧
    (req.method = "POST" → req.path = "/api/generate-from-document" →
      fetchHandler env client req =
        catchOut (handleGenerateFromDocument env client req)) ∧
    (req.method = "POST" → req.path = "/api/generate-from-audio" →
      fetchHandler env client req =
        catchOut (handleGenerateFromAudio env client req)) := by
  refine ⟨?_, ?_, ?_, ?_, ?_, ?_⟩
  · intro hp
    unfold fetchHandler
    rw [if_neg hopt, if_pos hp]
  · intro hp hk
    simp only [knownPaths, List.mem_cons, List.not_mem_nil, or_false,
      not_or] at hk
    obtain ⟨h1, h2, h3, h4⟩ := hk
    unfold fetchHandler
    rw [if_neg hopt, if_neg (not_not_intro hp), if_neg h1, if_neg h2,
      if_neg h3, if_neg h4]
  · intro hp h1
    unfold fetchHandler
    rw [if_neg hopt, if_neg (not_not_intro hp), if_pos h1]
  · intro hp h2
    unfold fetchHandler
    have h1 : req.path ≠ "/api/generate-text" := by
      rw [h2]; decide
    rw [if_neg hopt, if_neg (not_not_intro hp), if_neg h1, if_pos h2]
  · intro hp h3
    unfold fetchHandler
    have h1 : req.path ≠ "/api/generate-text" := by rw [h3]; decide
    have h2 : req.path ≠ "/api/generate-from-image" := by rw [h3]; decide
    rw [if_neg hopt, if_neg (not_not_intro hp), if_neg h1, if_neg h2, if_pos h3]
  · intro hp h4
    unfold fetchHandler
    have h1 : req.path ≠ "/api/generate-text" := by rw [h4]; decide
    have h2 : req.path ≠ "/api/generate-from-image" := by rw [h4]; decide
    have h3 : req.path ≠ "/api/generate-from-document" := by rw [h4]; decide
    rw [if_neg hopt, if_neg (not_not_intro hp), if_neg h1, if_neg h2,
      if_neg h3, if_pos h4]

/-- Witness for the amended C2: the GET to `/nope` gets the 405 response,
and a POST to `/api/generate-text/` (trailing slash) gets the 404 response. -/
theorem c2_amended_dispatch_witness :
    fetchHandler envW okClient reqGetUnknown =
      resp 405 (jsonError "Method not allowed") ∧
    fetchHandler envW okClient reqPostTrailingSlash =
      resp 404 (jsonError "Route not found") :=
  ⟨(c2_amended_dispatch envW okClient reqGetUnknown (by decide)).1 (by decide),
   (c2_amended_dispatch envW okClient reqPostTrailingSlash (by decide)).2.1
     rfl (by decide)⟩

/-- Routing equation of the dispatcher for the text path. -/
lemma fetchHandler_dispatch_text (env : Env) (client : ModelClient)
    (req : BunReq) (hm : req.method = "POST")
    (hp : req.path = "/api/generate-text") :
    fetchHandler env client req = catchOut (handleGenerateText env client req) := by
  unfold fetchHandler
  rw [if_neg (by rw [hm]; decide), if_neg (not_not_intro hm), if_pos hp]

/-- Routing equation of the dispatcher for the image path. -/
lemma fetchHandler_dispatch_image (env : Env) (client : ModelClient)
    (req : BunReq) (hm : req.method = "POST")
    (hp : req.path = "/api/generate-from-image") :
    fetchHandler env client req =
      catchOut (handleGenerateFromImage env client req) := by
  unfold fetchHandler
  rw [if_neg (by rw [hm]; decide), if_neg (not_not_intro hm),
    if_neg (by rw [hp]; decide), if_pos hp]

/-- Routing equation of the dispatcher for the document path. -/
lemma fetchHandler_dispatch_document (env : Env) (client : ModelClient)
    (req : BunReq) (hm : req.method = "POST")
    (hp : req.path = "/api/generate-from-document") :
    fetchHandler env client req =
      catchOut (handleGenerateFromDocument env client req) := by
  unfold fetchHandler
  rw [if_neg (by rw [hm]; decide), if_neg (not_not_intro hm),
    if_neg (by rw [hp]; decide), if_neg (by rw [hp]; decide), if_pos hp]

/-- Routing equation of the dispatcher for the audio path. -/
lemma fetchHandler_dispatch_audio (env : Env) (client : ModelClient)
    (req : BunReq) (hm : req.method = "POST")
    (hp : req.path = "/api/generate-from-audio") :
    fetchHandler env client req =
      catchOut (handleGenerateFromAudio env client req) := by
  unfold fetchHandler
  rw [if_neg (by rw [hm]; decide), if_neg (not_not_intro hm),
    if_neg (by rw [hp]; decide), if_neg (by rw [hp]; decide),
    if_neg (by rw [hp]; decide), if_pos hp]

/-- C3 is false as stated: in the Bun server every post-validation model
failure is caught by the one top-level catch and answered with the single
message "Internal server error", so the text and image categories share
one message and no injective per-category assignment exists. -/
theorem c3_counterexample_uniform_message : ¬ claimC3Stated := by
  rintro ⟨msg, hinj, hb⟩
  have ht := (hb envW "boom" reqTextOk).1
    ⟨rfl, rfl, by decide, { text := some "hello" }, rfl, by decide⟩
  have hi := (hb envW "boom" reqImgOk).2.1
    ⟨rfl, rfl, fdAllOk, fileImgOk, rfl, by decide, rfl, by decide⟩
  have ht0 : fetchHandler envW (fun _ => .failure "boom") reqTextOk =
      resp 500 (jsonFailure "Internal server error") := by decide
  have hi0 : fetchHandler envW (fun _ => .failure "boom") reqImgOk =
      resp 500 (jsonFailure "Internal server error") := by decide
  have hmt : msg .text = "Internal server error" := by
    have h := ht.symm.trans ht0
    simpa [resp, jsonFailure] using h
  have hmi : msg .image = "Internal server error" := by
    have h := hi.symm.trans hi0
    simpa [resp, jsonFailure] using h
  have : Category.text = Category.image := hinj (hmt.trans hmi.symm)
  exact absurd this (by decide)

/-- C3 amended: after validation, a model failure is answered with
HTTP 500 and `{success: false, error: <fixed message>}` in both servers;
the vendor detail `d` never appears — the response is a constant
independent of it.  In the Bun server the message is the single
"Internal server error" for every category; only in the Express server is
it category-specific ("Failed to generate text", "Failed to generate
content from image/document/audio"). -/
theorem c3_amended_generic_500 (env : Env) (d : String) (req : BunReq)
    (tex : Option String) (mf : MulterFile) (htex : isFalsy tex = false) :
    (validatedTextReq req →
      fetchHandler env (fun _ => .failure d) req =
        resp 500 (jsonFailure "Internal server error")) ∧
    (validatedImageReq req →
      fetchHandler env (fun _ => .failure d) req =
        resp 500 (jsonFailure "Internal server error")) ∧
    (validatedDocumentReq req →
      fetchHandler env (fun _ => .failure d) req =
        resp 500 (jsonFailure "Internal server error")) ∧
    (validatedAudioReq req →
      fetchHandler env (fun _ => .failure d) req =
        resp 500 (jsonFailure "Internal server error")) ∧
    (ExpressSrv.generateText env (fun _ => .failure d) tex).1 =
      resp 500 (jsonFailure "Failed to generate text") ∧
    (mf.mimetype ∈ allowedImageTypes →
      (ExpressSrv.generateFromImage env (fun _ => .failure d) tex (some mf)).1 =
        resp 500 (jsonFailure "Failed to generate content from image")) ∧
    (mf.mimetype ∈ allowedDocumentTypes →
      (ExpressSrv.generateFromDocument env (fun _ => .failure d) tex (some mf)).1 =
        resp 500 (jsonFailure "Failed to generate content from document")) ∧
    (mf.mimetype ∈ allowedAudioTypes →
      (ExpressSrv.generateFromAudio env (fun _ => .failure d) tex (some mf)).1 =
        resp 500 (jsonFailure "Failed to generate content from audio")) := by
  refine ⟨?_, ?_, ?_, ?_, ?_, ?_, ?_, ?_⟩
  · rintro ⟨hm, hp, hct, body, hj, htb⟩
    rw [fetchHandler_dispatch_text env _ req hm hp]
    simp [handleGenerateText, catchOut, hct, hj, htb]
  · rintro ⟨hm, hp, fd, f, hform, htf, himg, hmem⟩
    rw [fetchHandler_dispatch_image env _ req hm hp]
    simp [handleGenerateFromImage, catchOut, hform, htf, himg, hmem]
  · rintro ⟨hm, hp, fd, f, hform, htf, hdoc, hmem⟩
    rw [fetchHandler_dispatch_document env _ req hm hp]
    simp [handleGenerateFromDocument, catchOut, hform, htf, hdoc, hmem]
  · rintro ⟨hm, hp, fd, f, hform, htf, haud, hmem⟩
    rw [fetchHandler_dispatch_audio env _ req hm hp]
    simp [handleGenerateFromAudio, catchOut, hform, htf, haud, hmem]
  · simp [ExpressSrv.generateText, htex]
  · intro hmem
    simp [ExpressSrv.generateFromImage, htex, hmem]
  · intro hmem
    simp [ExpressSrv.generateFromDocument, htex, hmem]
  · intro hmem
    simp [ExpressSrv.generateFromAudio, htex, hmem]

/-- Witness for the amended C3 at concrete failing requests. -/
theorem c3_amended_generic_500_witness :
    fetchHandler envW (fun _ => .failure "boom") reqTextOk =
      resp 500 (jsonFailure "Internal server error") ∧
    fetchHandler envW (fun _ => .failure "boom") reqImgOk =
      resp 500 (jsonFailure "Internal server error") ∧
    (ExpressSrv.generateText envW (fun _ => .failure "boom") (some "hello")).1 =
      resp 500 (jsonFailure "Failed to generate text") ∧
    (ExpressSrv.generateFromImage envW (fun _ => .failure "boom") (some "hello")
        (some { originalname := "a.jpg", mimetype := "image/jpeg", size := 3,
                buffer := [1, 2, 3] })).1 =
      resp 500 (jsonFailure "Failed to generate content from image") :=
  ⟨(c3_amended_generic_500 envW "boom" reqTextOk (some "hello")
      { originalname := "a.jpg", mimetype := "image/jpeg", size := 3,
        buffer := [1, 2, 3] } (by decide)).1
    ⟨rfl, rfl, by decide, { text := some "hello" }, rfl, by decide⟩,
   (c3_amended_generic_500 envW "boom" reqImgOk (some "hello")
      { originalname := "a.jpg", mimetype := "image/jpeg", size := 3,
        buffer := [1, 2, 3] } (by decide)).2.1
    ⟨rfl, rfl, fdAllOk, fileImgOk, rfl, by decide, rfl, by decide⟩,
   (c3_amended_generic_500 envW "boom" reqTextOk (some "hello")
      { originalname := "a.jpg", mimetype := "image/jpeg", size := 3,
        buffer := [1, 2, 3] } (by decide)).2.2.2.2.1,
   (c3_amended_generic_500 envW "boom" reqTextOk (some "hello")
      { originalname := "a.jpg", mimetype := "image/jpeg", size := 3,
        buffer := [1, 2, 3] } (by decide)).2.2.2.2.2.1 (by decide)⟩

/-- A handler outcome of the common shape on `m` uses `m`. -/
lemma usesModel_of_shape {h : HandlerOut} {m : String}
    (hs : handlerShape h m) : usesModel h m := by
  constructor
  · intro c hc
    rcases hs with ⟨e, he⟩ | ⟨msg, he⟩ | ⟨t, c0, hid, he⟩ | ⟨d, c0, hid, he⟩ <;>
      rw [he] at hc <;> simp [HandlerOut.call] at hc
    all_goals (subst hc; exact hid)
  · intro r oc b hout hst hbody
    rcases hs with ⟨e, he⟩ | ⟨msg, he⟩ | ⟨t, c0, hid, he⟩ | ⟨d, c0, hid, he⟩ <;>
      rw [he] at hout
    · exact absurd hout (by simp)
    · injection hout with h1 h2
      rw [← h1] at hst
      simp [resp] at hst
    · injection hout with h1 h2
      rw [← h1] at hbody
      simp [resp] at hbody
      subst hbody
      exact ⟨c0, h2.symm, hid, rfl⟩
    · exact absurd hout (by simp)

/-- C7: the image handler — and only the image handler — selects the
vision model identifier; the text, document and audio handlers (both
strategies) select the text model identifier; and every 200 success body's
`model` field equals the identifier used for that request's call. -/
theorem c7_only_image_uses_vision_model (env : Env) (client : ModelClient)
    (req : BunReq) :
    usesModel (handleGenerateFromImage env client req) env.GEMINI_VISION_MODEL ∧
    usesModel (handleGenerateText env client req) env.GEMINI_MODEL ∧
    usesModel (handleGenerateFromDocument env client req) env.GEMINI_MODEL ∧
    usesModel (handleGenerateFromAudio env client req) env.GEMINI_MODEL ∧
    usesModel (DocumentHandlerTs.handleGenerateFromDocument env client req)
      env.GEMINI_MODEL ∧
    usesModel (AudioHandlerTs.handleGenerateFromAudio env client req)
      env.GEMINI_MODEL :=
  ⟨usesModel_of_shape (image_handler_shape env client req),
   usesModel_of_shape (text_handler_shape env client req),
   usesModel_of_shape (document_handler_shape env client req),
   usesModel_of_shape (audio_handler_shape env client req),
   usesModel_of_shape (document_binary_handler_shape env client req),
   usesModel_of_shape (audio_binary_handler_shape env client req)⟩

/-- Witness for C7 at a concrete successful image request. -/
theorem c7_only_image_uses_vision_model_witness :
    callImgOk.modelId = envW.GEMINI_VISION_MODEL ∧
    ∃ c, some callImgOk = some c ∧ c.modelId = envW.GEMINI_VISION_MODEL ∧
      (jsonSuccess "generated" "gemini-pro-vision").model =
        some envW.GEMINI_VISION_MODEL :=
  ⟨(c7_only_image_uses_vision_model envW okClient reqImgOk).1.1 callImgOk
      (by decide),
   (c7_only_image_uses_vision_model envW okClient reqImgOk).1.2
      (resp 200 (jsonSuccess "generated" "gemini-pro-vision")) (some callImgOk)
      (jsonSuccess "generated" "gemini-pro-vision") (by decide) rfl rfl⟩

/-- C8 is false as stated: the Bun server has no size check at all — an
image one byte over 10 MiB flows through the image handler and a Model
Client call is recorded (and, the client succeeding, answered 200). -/
theorem c8_counterexample_no_limit_in_bun : ¬ claimC8Stated := by
  intro h
  have hnone := (h envW okClient reqBigImage fdBig fileBig rfl (Or.inl rfl)
    (by decide)).1
  have hsome : (handleGenerateFromImage envW okClient reqBigImage).call =
      some callBig := by decide
  rw [hnone] at hsome
  exact Option.noConfusion hsome

/-- C8 amended: only the Express server enforces the 10 MiB ceiling,
through its multer configuration — acceptance is exactly `size ≤ 10 MiB`,
an oversized file is rejected before the route handler runs, and a file at
the limit reaches the handler; the Bun server's image handler never
consults the size at all (its result is invariant under changing it). -/
theorem c8_amended_limit_only_in_express :
    (∀ f : MulterFile,
      ExpressSrv.multerAcceptsFile f = true ↔ f.size ≤ 10 * 1024 * 1024) ∧
    (∀ (handler : Option String → Option MulterFile →
        HttpResponse × Option ModelCall) (tex : Option String)
      (f : MulterFile), 10 * 1024 * 1024 < f.size →
      ExpressSrv.uploadPipeline handler tex (some f) = none) ∧
    (∀ (handler : Option String → Option MulterFile →
        HttpResponse × Option ModelCall) (tex : Option String)
      (f : MulterFile), f.size ≤ 10 * 1024 * 1024 →
      ExpressSrv.uploadPipeline handler tex (some f) =
        some (handler tex (some f))) ∧
    (∀ (env : Env) (client : ModelClient) (req : BunReq) (fd : FormData)
      (f : FormFile) (n : Nat),
      req.formResult = .ok fd → fd.image = some f →
      handleGenerateFromImage env client req =
        handleGenerateFromImage env client
          { req with formResult :=
              Except.ok ({ fd with image := some ({ f with size := n }) }) }) := by
  refine ⟨?_, ?_, ?_, ?_⟩
  · intro f
    simp [ExpressSrv.multerAcceptsFile]
  · intro handler tex f hf
    have hacc : ExpressSrv.multerAcceptsFile f = false := by
      simp [ExpressSrv.multerAcceptsFile]
      omega
    simp [ExpressSrv.uploadPipeline, hacc]
  · intro handler tex f hf
    have hacc : ExpressSrv.multerAcceptsFile f = true := by
      simp [ExpressSrv.multerAcceptsFile, hf]
    simp [ExpressSrv.uploadPipeline, hacc]
  · intro env client req fd f n hform himg
    simp [handleGenerateFromImage, hform, himg]

/-- Witness for the amended C8 at the boundary sizes. -/
theorem c8_amended_limit_only_in_express_witness :
    ExpressSrv.multerAcceptsFile mfAtLimit = true ∧
    ExpressSrv.uploadPipeline (ExpressSrv.generateFromImage envW okClient)
      (some "hi") (some mfOverLimit) = none ∧
    handleGenerateFromImage envW okClient reqBigImage =
      handleGenerateFromImage envW okClient reqBigImageResized :=
  ⟨(c8_amended_limit_only_in_express.1 mfAtLimit).mpr (by decide),
   c8_amended_limit_only_in_express.2.1
     (ExpressSrv.generateFromImage envW okClient) (some "hi") mfOverLimit
     (by decide),
   c8_amended_limit_only_in_express.2.2.2 envW okClient reqBigImage fdBig
     fileBig 0 rfl rfl⟩

/-- C9: for the document and audio categories, the textual-prompt strategy
(`src/index.ts`) and the binary inline-part strategy
(`src/handlers/*.ts`) produce responses of identical envelope shape: for
every input and every pair of Model Client outcomes of the same kind, the
two variants return the same status code, the same set of body fields and
the same model identifier. -/
theorem c9_both_strategies_same_envelope_shape (env : Env) (req : BunReq)
    (o1 o2 : ModelOutcome) (hk : o1.isSuccess = o2.isSuccess) :
    respShape (catchOut (handleGenerateFromDocument env (fun _ => o1) req)) =
      respShape (catchOut
        (DocumentHandlerTs.handleGenerateFromDocument env (fun _ => o2) req)) ∧
    respShape (catchOut (handleGenerateFromAudio env (fun _ => o1) req)) =
      respShape (catchOut
        (AudioHandlerTs.handleGenerateFromAudio env (fun _ => o2) req)) := by
  constructor
  · rcases hf : req.formResult with e | fd
    · simp [handleGenerateFromDocument,
        DocumentHandlerTs.handleGenerateFromDocument, hf]
    · by_cases ht : isFalsy fd.text = true
      · simp [handleGenerateFromDocument,
          DocumentHandlerTs.handleGenerateFromDocument, hf, ht]
      · rcases hi : fd.document with _ | f
        · simp [handleGenerateFromDocument,
            DocumentHandlerTs.handleGenerateFromDocument, hf, ht, hi]
        · by_cases hc : f.type ∈ allowedDocumentTypes
          · rcases o1 with t1 | d1 <;> rcases o2 with t2 | d2
            · simp [handleGenerateFromDocument,
                DocumentHandlerTs.handleGenerateFromDocument, hf, ht, hi, hc,
                catchOut, respShape, bodyFields, jsonSuccess, resp]
            · exact absurd hk (by simp [ModelOutcome.isSuccess])
            · exact absurd hk (by simp [ModelOutcome.isSuccess])
            · simp [handleGenerateFromDocument,
                DocumentHandlerTs.handleGenerateFromDocument, hf, ht, hi, hc,
                catchOut]
          · simp [handleGenerateFromDocument,
              DocumentHandlerTs.handleGenerateFromDocument, hf, ht, hi, hc]
  · rcases hf : req.formResult with e | fd
    · simp [handleGenerateFromAudio,
        AudioHandlerTs.handleGenerateFromAudio, hf]
    · by_cases ht : isFalsy fd.text = true
      · simp [handleGenerateFromAudio,
          AudioHandlerTs.handleGenerateFromAudio, hf, ht]
      · rcases hi : fd.audio with _ | f
        · simp [handleGenerateFromAudio,
            AudioHandlerTs.handleGenerateFromAudio, hf, ht, hi]
        · by_cases hc : f.type ∈ allowedAudioTypes
          · rcases o1 with t1 | d1 <;> rcases o2 with t2 | d2
            · simp [handleGenerateFromAudio,
                AudioHandlerTs.handleGenerateFromAudio, hf, ht, hi, hc,
                catchOut, respShape, bodyFields, jsonSuccess, resp]
            · exact absurd hk (by simp [ModelOutcome.isSuccess])
            · exact absurd hk (by simp [ModelOutcome.isSuccess])
            · simp [handleGenerateFromAudio,
                AudioHandlerTs.handleGenerateFromAudio, hf, ht, hi, hc,
                catchOut]
          · simp [handleGenerateFromAudio,
              AudioHandlerTs.handleGenerateFromAudio, hf, ht, hi, hc]

/-- Witness for C9 at a concrete valid request and two distinct success
outcomes. -/
theorem c9_both_strategies_same_envelope_shape_witness :
    respShape (catchOut (handleGenerateFromDocument envW
        (fun _ => .success "a") reqDocOk)) =
      respShape (catchOut (DocumentHandlerTs.handleGenerateFromDocument envW
        (fun _ => .success "b") reqDocOk)) ∧
    respShape (catchOut (handleGenerateFromAudio envW
        (fun _ => .success "a") reqDocOk)) =
      respShape (catchOut (AudioHandlerTs.handleGenerateFromAudio envW
        (fun _ => .success "b") reqDocOk)) :=
  c9_both_strategies_same_envelope_shape envW reqDocOk
    (.success "a") (.success "b") rfl

/-- C10: a POST to the text endpoint whose Content-Type includes
`application/json` but whose body fails to parse as JSON makes
`req.json()` throw; the throw propagates to the dispatcher catch, which
answers HTTP 500 `{success: false, error: "Internal server error"}` —
not a 400 validation error. -/
theorem c10_unparseable_json_yields_500 (env : Env) (client : ModelClient)
    (req : BunReq) (e : String)
    (hm : req.method = "POST") (hp : req.path = "/api/generate-text")
    (hct : jsIncludes (req.contentType.getD "") "application/json" = true)
    (hj : req.jsonResult = .error e) :
    fetchHandler env client req = resp 500 (jsonFailure "Internal server error") := by
  rw [fetchHandler_dispatch_text env client req hm hp]
  simp [handleGenerateText, catchOut, hct, hj]

/-- Witness for C10 at a concrete unparseable-JSON request. -/
theorem c10_unparseable_json_yields_500_witness :
    fetchHandler envW okClient reqBadJson =
      resp 500 (jsonFailure "Internal server error") :=
  c10_unparseable_json_yields_500 envW okClient reqBadJson
    "Unexpected end of JSON input" rfl rfl (by decide) rfl
